import Mathlib

/-!
Verification of the TravelBuddy model-quantization scripts
(`scripts/quantize_model.py` and `scripts/quick_quantize.py`).

The scripts only manipulate the filesystem: they read a source model
directory, build JSON configuration documents, and write JSON and binary
files into two output directories.  We embed them shallowly:

* a filesystem is a map from paths (lists of components) to optional file
  contents;
* file contents are either a JSON document (modelled by an inductive JSON
  value whose numbers are integers - the scripts only produce integer
  numbers, and non-integer inputs play no role in any claim) or raw bytes;
* every file write performed by a script becomes an explicit `Step`, and a
  run is the left-to-right execution of its step list;
* calls into external ML libraries (model loading/saving, ONNX export) are
  abstracted as oracle parameters describing which files the library call
  writes, or that it raised an exception; the Python floating-point model
  size, which no claim computes with, is carried as an opaque integer value.
-/

/-- A JSON value.  Numeric literals written by the scripts are integers. -/
inductive JValue where
  | jstr (s : String)
  | jnum (n : Int)
  | jbool (b : Bool)
  | jarr (xs : List JValue)
  | jobj (fields : List (String × JValue))
  | jnull

/-- Contents of a file: a JSON document, or raw bytes (one `Nat` per byte). -/
inductive FileData where
  | jsonFile (v : JValue)
  | binFile (bytes : List Nat)

/-- A filesystem path, as its list of components relative to the project root. -/
abbrev FPath := List String

/-- A filesystem: each path optionally holds a file. -/
abbrev FS := FPath → Option FileData

/-- Filesystem plus the set of existing directories. -/
structure SysState where
  files : FS
  dirs : FPath → Bool

/-- Lookup of a key in a JSON object (Python `d[k]` / first binding). -/
def lookupJ (o : List (String × JValue)) (k : String) : Option JValue :=
  (o.find? (fun p => p.1 == k)).map (fun p => p.2)

/-- Python `dict.get(k, default)`. -/
def jget (o : List (String × JValue)) (k : String) (d : JValue) : JValue :=
  match lookupJ o k with
  | some v => v
  | none => d

/-- UTF-8/ASCII bytes of a string literal (all script literals are ASCII). -/
def strBytes (s : String) : List Nat :=
  s.toList.map Char.toNat

/-- One primitive filesystem action performed by a script: write fixed data,
or copy a source file to a destination when the source exists
(`if source_file.exists(): shutil.copy2(...)`). -/
inductive Step where
  | write (p : FPath) (d : FileData)
  | copy (src dst : FPath)

/-- Execute one step. -/
def exec1 : Step → FS → FS
  | .write p d, fs => Function.update fs p (some d)
  | .copy s d, fs =>
      match fs s with
      | some v => Function.update fs d (some v)
      | none => fs

/-- Execute a list of steps, first step first. -/
def execSteps : List Step → FS → FS
  | [], fs => fs
  | st :: rest, fs => execSteps rest (exec1 st fs)

/-- The destination paths a step list writes to. -/
def targets : List Step → List FPath
  | [] => []
  | .write p _ :: rest => p :: targets rest
  | .copy _ d :: rest => d :: targets rest

/-- The source paths a step list copies from. -/
def copySrcs : List Step → List FPath
  | [] => []
  | .write _ _ :: rest => copySrcs rest
  | .copy s _ :: rest => s :: copySrcs rest

/-- The value a single step leaves at `p` (when it targets `p`), with copy
sources read from `fs`. -/
def stepVal : Step → FS → FPath → Option FileData
  | .write q d, _, p => if p = q then some d else none
  | .copy s dst, fs, p => if p = dst then fs s else none

/-- The value the last step of the list that touches `p` leaves there, with
all copy sources read from `fs`. -/
def lastVal : List Step → FS → FPath → Option FileData
  | [], _, _ => none
  | st :: rest, fs, p =>
      match lastVal rest fs p with
      | some d => some d
      | none => stepVal st fs p

theorem lastVal_congr (steps : List Step) (f g : FS) (p : FPath)
    (h : ∀ q ∈ copySrcs steps, f q = g q) :
    lastVal steps f p = lastVal steps g p := by
  induction steps with
  | nil => rfl
  | cons st rest ih =>
      have hrest : ∀ q ∈ copySrcs rest, f q = g q := by
        intro q hq
        apply h
        cases st with
        | write p d => simpa [copySrcs] using hq
        | copy s dst => simp [copySrcs]; right; exact hq
      have hs : stepVal st f p = stepVal st g p := by
        cases st with
        | write q d => rfl
        | copy s dst =>
            simp only [stepVal]
            rw [h s (by simp [copySrcs])]
      simp only [lastVal, ih hrest, hs]

theorem lastVal_of_not_target (steps : List Step) (fs : FS) (p : FPath)
    (h : p ∉ targets steps) : lastVal steps fs p = none := by
  induction steps with
  | nil => rfl
  | cons st rest ih =>
      cases st with
      | write q d =>
          simp only [targets, List.mem_cons, not_or] at h
          simp only [lastVal, ih h.2, stepVal, if_neg h.1]
      | copy s dst =>
          simp only [targets, List.mem_cons, not_or] at h
          simp only [lastVal, ih h.2, stepVal, if_neg h.1]

theorem exec1_not_target (st : Step) (fs : FS) (p : FPath)
    (h : p ∉ targets [st]) : exec1 st fs p = fs p := by
  cases st with
  | write q d =>
      simp only [targets, List.mem_cons, not_or] at h
      simp [exec1, Function.update_apply, if_neg h.1]
  | copy s dst =>
      simp only [targets, List.mem_cons, not_or] at h
      simp only [exec1]
      cases hs : fs s with
      | none => rfl
      | some v => simp [Function.update_apply, if_neg h.1]

/-- Characterization of a run whose copy sources are never overwritten:
the final content at `p` is the last value written there, defaulting to the
initial content. -/
theorem execSteps_eq_lastVal (steps : List Step) (fs : FS) (p : FPath)
    (hd : ∀ q ∈ copySrcs steps, q ∉ targets steps) :
    execSteps steps fs p =
      match lastVal steps fs p with
      | some d => some d
      | none => fs p := by
  induction steps generalizing fs with
  | nil => rfl
  | cons st rest ih =>
      have hdRest : ∀ q ∈ copySrcs rest, q ∉ targets rest := by
        intro q hq hq2
        have hq1 : q ∈ copySrcs (st :: rest) := by
          cases st <;> simp [copySrcs] at hq ⊢ <;> tauto
        have : q ∈ targets (st :: rest) := by
          cases st <;> simp [targets] at hq2 ⊢ <;> tauto
        exact hd q hq1 this
      have hagree : ∀ q ∈ copySrcs rest, exec1 st fs q = fs q := by
        intro q hq
        apply exec1_not_target
        intro hmem
        have hq1 : q ∈ copySrcs (st :: rest) := by
          cases st <;> simp [copySrcs] at hq ⊢ <;> tauto
        have : q ∈ targets (st :: rest) := by
          cases st <;> simp [targets] at hmem ⊢ <;> tauto
        exact hd q hq1 this
      have hstep : execSteps (st :: rest) fs p = execSteps rest (exec1 st fs) p := rfl
      rw [hstep, ih (exec1 st fs) hdRest,
        lastVal_congr rest (exec1 st fs) fs p hagree]
      simp only [lastVal]
      cases hlv : lastVal rest fs p with
      | some d => rfl
      | none =>
          cases st with
          | write q d =>
              simp only [stepVal, exec1, Function.update_apply]
              by_cases hpq : p = q <;> simp [hpq]
          | copy s dst =>
              simp only [stepVal, exec1]
              by_cases hpd : p = dst
              · subst hpd
                cases hfs : fs s with
                | none => simp
                | some v => simp [Function.update_apply]
              · cases hfs : fs s with
                | none => simp [hpd]
                | some v => simp [Function.update_apply, hpd]

theorem execSteps_not_target (steps : List Step) (fs : FS) (p : FPath)
    (hd : ∀ q ∈ copySrcs steps, q ∉ targets steps)
    (h : p ∉ targets steps) : execSteps steps fs p = fs p := by
  rw [execSteps_eq_lastVal steps fs p hd, lastVal_of_not_target steps fs p h]

/-- Running the same step list twice is the same as running it once, provided
no step overwrites a copy source. -/
theorem execSteps_idem (steps : List Step) (fs : FS)
    (hd : ∀ q ∈ copySrcs steps, q ∉ targets steps) :
    execSteps steps (execSteps steps fs) = execSteps steps fs := by
  funext p
  have hagree : ∀ q ∈ copySrcs steps, execSteps steps fs q = fs q := by
    intro q hq
    exact execSteps_not_target steps fs q hd (hd q hq)
  rw [execSteps_eq_lastVal steps (execSteps steps fs) p hd,
    lastVal_congr steps (execSteps steps fs) fs p hagree,
    execSteps_eq_lastVal steps fs p hd]
  cases hlv : lastVal steps fs p with
  | some d => rfl
  | none => rfl

/-!
## Embedding of `scripts/quick_quantize.py`

Paths are relative to the project root (`script_dir.parent`).
-/

/-- Source `source_dir = project_root / "models" / "gemma3n"`. -/
def srcDir : FPath := ["models", "gemma3n"]

/-- Source `output_dirs['models'] = project_root / "models" / "gemma3n_quantized"`. -/
def modelsOut : FPath := ["models", "gemma3n_quantized"]

/-- Source `output_dirs['assets'] = project_root / "assets" / "models" / "gemma3n"`. -/
def assetsOut : FPath := ["assets", "models", "gemma3n"]

/-- Source `original_config_path = source_dir / "config.json"`. -/
def quickSrcConfigPath : FPath := srcDir ++ ["config.json"]

/-- Source `files_to_copy` of `create_mobile_model`. -/
def quickFilesToCopy : List String :=
  ["tokenizer.json", "tokenizer_config.json", "special_tokens_map.json",
   "generation_config.json"]

/-- Source `mkdir(parents=True, exist_ok=True)`: the directory and all its parents
exist afterwards. -/
def mkdirp (d : FPath) (g : FPath → Bool) : FPath → Bool :=
  fun p => g p || p.isPrefixOf d

/-- Reading the original config: a missing file yields the empty default
dict (`original_config = {}`); a JSON object yields its fields; any other
content makes the script raise (invalid JSON in `json.load`, or
`AttributeError` on `.get` for a non-dict document), modelled as `none`. -/
def loadOriginalConfig (fs : FS) : Option (List (String × JValue)) :=
  match fs quickSrcConfigPath with
  | none => some []
  | some (.jsonFile (.jobj fields)) => some fields
  | some _ => none

/-- Python `min(v, cap)` on a JSON value and an integer literal: numbers
compare numerically; booleans are integers (`True == 1`, `False == 0`) and
`min` returns its first argument on less-or-equal, so a boolean below the
cap is returned as a boolean; any other value raises `TypeError`. -/
def pyMinJ (v : JValue) (cap : Int) : Option JValue :=
  match v with
  | .jnum n => some (.jnum (min n cap))
  | .jbool b => some (if (if b then (1 : Int) else 0) ≤ cap then .jbool b else .jnum cap)
  | _ => none

/-- The `mobile_config` dict built by `create_mobile_model`, in source
order; `none` when one of the `min` calls raises. -/
def quickMobileConfig (o : List (String × JValue)) :
    Option (List (String × JValue)) :=
  match pyMinJ (jget o "hidden_size" (.jnum 2048)) 1024,
        pyMinJ (jget o "num_attention_heads" (.jnum 8)) 6,
        pyMinJ (jget o "num_hidden_layers" (.jnum 18)) 8,
        pyMinJ (jget o "intermediate_size" (.jnum 16384)) 2048,
        pyMinJ (jget o "max_position_embeddings" (.jnum 8192)) 2048 with
  | some hs, some nah, some nhl, some its, some mpe =>
      some
        [("model_type", jget o "model_type" (.jstr "gemma")),
         ("architectures", jget o "architectures" (.jarr [.jstr "GemmaForCausalLM"])),
         ("vocab_size", jget o "vocab_size" (.jnum 256000)),
         ("hidden_size", hs),
         ("num_attention_heads", nah),
         ("num_hidden_layers", nhl),
         ("intermediate_size", its),
         ("max_position_embeddings", mpe),
         ("torch_dtype", .jstr "float16"),
         ("transformers_version", .jstr "4.38.0"),
         ("_name_or_path", .jstr "google/gemma-3n-mobile"),
         ("use_cache", .jbool true),
         ("mobile_optimized", .jbool true),
         ("quantization", .jstr "mobile_ready"),
         ("approximate_size_mb", .jnum 50)]
  | _, _, _, _, _ => none

/-- The safetensors index written by `create_minimal_weights`. -/
def quickIndexJson : JValue :=
  .jobj
    [("metadata", .jobj [("total_size", .jnum 52428800)]),
     ("weight_map", .jobj
        [("model.embed_tokens.weight", .jstr "model.safetensors"),
         ("model.layers.0.self_attn.q_proj.weight", .jstr "model.safetensors"),
         ("model.layers.0.self_attn.k_proj.weight", .jstr "model.safetensors"),
         ("model.layers.0.self_attn.v_proj.weight", .jstr "model.safetensors"),
         ("model.layers.0.self_attn.o_proj.weight", .jstr "model.safetensors"),
         ("model.norm.weight", .jstr "model.safetensors"),
         ("lm_head.weight", .jstr "model.safetensors")])]

/-- Source `b"GEMMA3N_MOBILE_PLACEHOLDER_WEIGHTS" + b"\x00" * (placeholder_size - 34)`
with `placeholder_size = 1024 * 1024`. -/
def quickPlaceholderBytes : List Nat :=
  strBytes "GEMMA3N_MOBILE_PLACEHOLDER_WEIGHTS" ++ List.replicate (1024 * 1024 - 34) 0

/-- The fields of the `model_info` dict of `create_mobile_model`, in source
order, for one output location. -/
def quickInfoFields (loc : String) : List (String × JValue) :=
  [("model_name", .jstr "Google Gemma 3n Mobile"),
   ("variant", .jstr "mobile_optimized"),
   ("quantization_method", .jstr "mobile_ready"),
   ("approximate_size_mb", .jnum 50),
   ("mobile_optimized", .jbool true),
   ("status", .jstr "ready"),
   ("location", .jstr loc),
   ("description", .jstr "Mobile-optimized Gemma 3n with reduced parameters for React Native deployment"),
   ("inference_note", .jstr "Uses placeholder weights - implement actual inference bridge for full functionality")]

/-- The `model_info.json` document for one location. -/
def quickInfo (loc : String) : JValue := .jobj (quickInfoFields loc)

/-- The file writes `create_mobile_model` performs for one output location,
in source order: `config.json`, the four conditional tokenizer-file copies,
the two files of `create_minimal_weights`, then `model_info.json`. -/
def locSteps (mc : List (String × JValue)) (loc : String) (out : FPath) :
    List Step :=
  [Step.write (out ++ ["config.json"]) (.jsonFile (.jobj mc))]
    ++ quickFilesToCopy.map (fun n => Step.copy (srcDir ++ [n]) (out ++ [n]))
    ++ [Step.write (out ++ ["model.safetensors.index.json"]) (.jsonFile quickIndexJson),
        Step.write (out ++ ["model.safetensors"]) (.binFile quickPlaceholderBytes),
        Step.write (out ++ ["model_info.json"]) (.jsonFile (quickInfo loc))]

/-- All file writes of one `create_mobile_model` run: the `models` location
first, then the `assets` location. -/
def quickSteps (mc : List (String × JValue)) : List Step :=
  locSteps mc "models" modelsOut ++ locSteps mc "assets" assetsOut

/-- The directories `create_mobile_model` creates. -/
def quickDirs (g : FPath → Bool) : FPath → Bool :=
  mkdirp assetsOut (mkdirp modelsOut g)

/-- Source `create_mobile_model` of `quick_quantize.py`: create the two output
directories, read the original config (defaulting to `{}` when absent),
build `mobile_config`, and write all files in both locations.  The result
is `none` when the script raises, otherwise the returned boolean (always
`True`) and the final filesystem state. -/
def create_mobile_model (s : SysState) : Option (Bool × SysState) :=
  match loadOriginalConfig s.files with
  | none => none
  | some o =>
      match quickMobileConfig o with
      | none => none
      | some mc =>
          some (true, ⟨execSteps (quickSteps mc) s.files, quickDirs s.dirs⟩)

/-!
## Embedding of `scripts/quantize_model.py`

External library calls (model loading, quantized saving, ONNX export) are
abstracted by an `Oracle`: for each pathway it either reports the exception
the library raised (the `except Exception` branch of the source) or lists
the files the library calls wrote into the output directory, plus the
`get_model_size` value where the source uses one.
-/

/-- Source `dirs['source'] = project_root / "models" / "gemma3n"`. -/
def qmSourceDir : FPath := ["models", "gemma3n"]

/-- Source `dirs['quantized'] = project_root / "models" / "gemma3n_quantized"`. -/
def qmQuantizedDir : FPath := ["models", "gemma3n_quantized"]

/-- Source `dirs['output'] = project_root / "assets" / "models" / "gemma3n"`. -/
def qmOutputDir : FPath := ["assets", "models", "gemma3n"]

/-- Source `setup_directories`: creates the quantized and output directories
(with parents); the source directory is never created. -/
def qmDirs (g : FPath → Bool) : FPath → Bool :=
  mkdirp qmOutputDir (mkdirp qmQuantizedDir g)

/-- The attributes `create_custom_quantized_model` reads from the
`AutoConfig` loaded from the source model (integer-valued hyperparameters,
plus the strings and the architectures list it copies verbatim). -/
structure OrigConfig where
  model_type : String
  architectures : JValue
  vocab_size : Int
  hidden_size : Int
  num_attention_heads : Int
  num_hidden_layers : Int
  intermediate_size : Int
  max_position_embeddings : Int
  name_or_path : String

/-- The `mobile_config` dict of `create_custom_quantized_model`, in source
order. -/
def customMobileConfig (c : OrigConfig) : List (String × JValue) :=
  [("model_type", .jstr c.model_type),
   ("architectures", c.architectures),
   ("vocab_size", .jnum c.vocab_size),
   ("hidden_size", .jnum (min c.hidden_size 1024)),
   ("num_attention_heads", .jnum (min c.num_attention_heads 8)),
   ("num_hidden_layers", .jnum (min c.num_hidden_layers 12)),
   ("intermediate_size", .jnum (min c.intermediate_size 4096)),
   ("max_position_embeddings", .jnum (min c.max_position_embeddings 2048)),
   ("torch_dtype", .jstr "float16"),
   ("use_cache", .jbool true),
   ("_name_or_path", .jstr (c.name_or_path ++ "-mobile")),
   ("mobile_optimized", .jbool true),
   ("quantization", .jstr "custom_mobile")]

/-- The safetensors index written by `create_placeholder_weights`. -/
def qmIndexJson : JValue :=
  .jobj
    [("metadata", .jobj [("total_size", .jnum (1024 * 1024))]),
     ("weight_map", .jobj
        [("model.embed_tokens.weight", .jstr "model.safetensors"),
         ("model.norm.weight", .jstr "model.safetensors"),
         ("lm_head.weight", .jstr "model.safetensors")])]

/-- Source `b"PLACEHOLDER_WEIGHTS_FOR_MOBILE_TESTING" + b"\x00" * (1024 - 38)`. -/
def placeholderData : List Nat :=
  strBytes "PLACEHOLDER_WEIGHTS_FOR_MOBILE_TESTING" ++ List.replicate (1024 - 38) 0

/-- Source `create_placeholder_weights`: writes the safetensors index and the tiny
placeholder weights file into the output directory. -/
def create_placeholder_weights (outDir : FPath) (fs : FS) : FS :=
  Function.update
    (Function.update fs (outDir ++ ["model.safetensors.index.json"])
      (some (.jsonFile qmIndexJson)))
    (outDir ++ ["model.safetensors"]) (some (.binFile placeholderData))

/-- The `info` dict of `create_quantized_model_info`, in source order.  The
floating-point `size_gb` is carried as an opaque integer-valued token. -/
def qmInfoFields (method : String) (sizeGb : Int) : List (String × JValue) :=
  [("model_name", .jstr "Google Gemma 3n"),
   ("variant", .jstr "quantized"),
   ("quantization_method", .jstr method),
   ("size_gb", .jnum sizeGb),
   ("mobile_optimized", .jbool true),
   ("status", .jstr "ready"),
   ("description", .jstr ("Quantized Gemma 3n model using " ++ method ++ " quantization"))]

/-- Source `create_quantized_model_info`: writes `model_info.json` into the output
directory. -/
def create_quantized_model_info (outDir : FPath) (method : String)
    (sizeGb : Int) (fs : FS) : FS :=
  Function.update fs (outDir ++ ["model_info.json"])
    (some (.jsonFile (.jobj (qmInfoFields method sizeGb))))

/-- Write a list of library-produced `(file name, data)` pairs into an
output directory (the effect of `save_pretrained`-style calls). -/
def libWrites (outDir : FPath) (saved : List (String × FileData)) : List Step :=
  saved.map (fun nf => Step.write (outDir ++ [nf.1]) nf.2)

/-- Source `quantize_with_transformers`: on a library exception, print and return
`False` (`except Exception` branch); otherwise the model and tokenizer are
saved, `create_quantized_model_info` is called, and `True` is returned. -/
def quantize_with_transformers
    (lib : Except Unit (List (String × FileData) × Int))
    (outDir : FPath) (method : String) (fs : FS) : Bool × FS :=
  match lib with
  | .error _ => (false, fs)
  | .ok (saved, sizeGb) =>
      (true, create_quantized_model_info outDir method sizeGb
        (execSteps (libWrites outDir saved) fs))

/-- Source `quantize_to_onnx`: on a library exception, print and return `False`;
otherwise the quantizer and tokenizer write their files and `True` is
returned.  No model info file is written by this function. -/
def quantize_to_onnx
    (lib : Except Unit (List (String × FileData)))
    (outDir : FPath) (fs : FS) : Bool × FS :=
  match lib with
  | .error _ => (false, fs)
  | .ok saved => (true, execSteps (libWrites outDir saved) fs)

/-- Source `create_custom_quantized_model`: on a library exception while loading
the config or tokenizer, print and return `False`; otherwise write the
mobile `config.json`, save the tokenizer (library-produced files), create
the placeholder weights, and return `True`.  No model info file is written
by this function. -/
def create_custom_quantized_model
    (lib : Except Unit (OrigConfig × List (String × FileData)))
    (outDir : FPath) (fs : FS) : Bool × FS :=
  match lib with
  | .error _ => (false, fs)
  | .ok (config, tokFiles) =>
      (true, create_placeholder_weights outDir
        (execSteps (libWrites outDir tokFiles)
          (Function.update fs (outDir ++ ["config.json"])
            (some (.jsonFile (.jobj (customMobileConfig config)))))))

/-- Source `shutil.rmtree`: remove every file under the directory. -/
def rmtreeFS (d : FPath) (fs : FS) : FS :=
  fun p => if d.isPrefixOf p = true then none else fs p

/-- Source `shutil.copytree src dst`: every file of `dst` is the file at the
corresponding relative path under `src`; everything else is unchanged. -/
def copytreeFS (src dst : FPath) (fs : FS) : FS :=
  fun p =>
    if dst.isPrefixOf p = true ∧ dst.length < p.length then
      fs (src ++ p.drop dst.length)
    else fs p

/-- Source `copy_to_assets`: remove the existing assets model directory, then copy
the quantized model tree there; returns `True`. -/
def copy_to_assets (quantizedDir assetsDir : FPath) (fs : FS) : Bool × FS :=
  (true, copytreeFS quantizedDir assetsDir (rmtreeFS assetsDir fs))

/-- The `methods` menu dict of `main`: key, quantization parameter. -/
def methodsTable : List (String × String) :=
  [("1", "int8"), ("2", "int4"), ("3", "fp16"),
   ("4", "onnx_int8"), ("5", "custom_mobile")]

/-- Source `method_key = choice if choice in methods else "1"`. -/
def selKey (choice : String) : String :=
  if (methodsTable.find? (fun kv => kv.1 == choice)).isSome then choice else "1"

/-- Source `param, func = methods[method_key]` (the key is always present). -/
def selParam (choice : String) : String :=
  match methodsTable.find? (fun kv => kv.1 == selKey choice) with
  | some kv => kv.2
  | none => "int8"

/-- Outcomes of the external library calls of each pathway: either the
exception raised, or the files written (and the model size reported for the
transformers pathway). -/
structure Oracle where
  twt : String → Except Unit (List (String × FileData) × Int)
  onnx : Except Unit (List (String × FileData))
  custom : Except Unit (OrigConfig × List (String × FileData))

/-- Dispatch of `main` on the quantization parameter: the three
transformers methods take the method string, the other entries call their
function without it. -/
def runMethod (orc : Oracle) (param : String) (outDir : FPath) (fs : FS) :
    Bool × FS :=
  if param = "int8" ∨ param = "int4" ∨ param = "fp16" then
    quantize_with_transformers (orc.twt param) outDir param fs
  else if param = "onnx_int8" then
    quantize_to_onnx orc.onnx outDir fs
  else
    create_custom_quantized_model orc.custom outDir fs

/-- The `choice == "6"` branch: run every method into its own
`method_<key>_<param>` subdirectory (created with `exist_ok=True`), counting
successes; the process then ends normally. -/
def runAllMethods (orc : Oracle) (s : SysState) : Nat × SysState :=
  methodsTable.foldl
    (fun acc kv =>
      let mdir := qmQuantizedDir ++ ["method_" ++ kv.1 ++ "_" ++ kv.2]
      let dirs1 := fun p => if p = mdir then true else acc.2.dirs p
      let r := runMethod orc kv.2 mdir acc.2.files
      (acc.1 + (if r.1 then 1 else 0), ⟨r.2, dirs1⟩))
    (0, s)

/-- Python `str.strip()`: remove leading and trailing whitespace (the menu
inputs of interest are ASCII). -/
def pyStrip (s : String) : String :=
  ⟨((s.data.dropWhile Char.isWhitespace).reverse.dropWhile Char.isWhitespace).reverse⟩

/-- Result of a `main` run of `quantize_model.py`. -/
inductive MainResult where
  | exited (code : Nat) (dirsCreated : Bool) (s : SysState)
  | completedAll (successCount : Nat) (s : SysState)
  | completedSingle (param : String) (methodOk : Bool) (copied : Bool)
      (exitCode : Nat) (s : SysState)

/-- Source `main` of `quantize_model.py`: check dependencies (exit 1 before any
directory is created when missing), create the output directories, exit 1
when the source directory does not exist, read and strip the menu input,
then either run all methods (choice `"6"`) or run the selected single
method, copying to assets only on success and exiting 1 on failure. -/
def mainQM (depsOk : Bool) (inputLine : String) (orc : Oracle)
    (s : SysState) : MainResult :=
  if depsOk = false then .exited 1 false s
  else
    let dirs1 := qmDirs s.dirs
    if dirs1 qmSourceDir = false then .exited 1 true ⟨s.files, dirs1⟩
    else
      let choice := pyStrip inputLine
      if choice = "6" then
        let r := runAllMethods orc ⟨s.files, dirs1⟩
        .completedAll r.1 r.2
      else
        let param := selParam choice
        let r := runMethod orc param qmQuantizedDir s.files
        if r.1 then
          let c := copy_to_assets qmQuantizedDir qmOutputDir r.2
          .completedSingle param true true 0 ⟨c.2, dirs1⟩
        else
          .completedSingle param false false 1 ⟨r.2, dirs1⟩

/-!
## Helper lemmas about the quick-script step list
-/

theorem quickSteps_targets (mc : List (String × JValue)) :
    targets (quickSteps mc) =
      [["models", "gemma3n_quantized", "config.json"],
       ["models", "gemma3n_quantized", "tokenizer.json"],
       ["models", "gemma3n_quantized", "tokenizer_config.json"],
       ["models", "gemma3n_quantized", "special_tokens_map.json"],
       ["models", "gemma3n_quantized", "generation_config.json"],
       ["models", "gemma3n_quantized", "model.safetensors.index.json"],
       ["models", "gemma3n_quantized", "model.safetensors"],
       ["models", "gemma3n_quantized", "model_info.json"],
       ["assets", "models", "gemma3n", "config.json"],
       ["assets", "models", "gemma3n", "tokenizer.json"],
       ["assets", "models", "gemma3n", "tokenizer_config.json"],
       ["assets", "models", "gemma3n", "special_tokens_map.json"],
       ["assets", "models", "gemma3n", "generation_config.json"],
       ["assets", "models", "gemma3n", "model.safetensors.index.json"],
       ["assets", "models", "gemma3n", "model.safetensors"],
       ["assets", "models", "gemma3n", "model_info.json"]] := rfl

theorem quickSteps_copySrcs (mc : List (String × JValue)) :
    copySrcs (quickSteps mc) =
      [["models", "gemma3n", "tokenizer.json"],
       ["models", "gemma3n", "tokenizer_config.json"],
       ["models", "gemma3n", "special_tokens_map.json"],
       ["models", "gemma3n", "generation_config.json"],
       ["models", "gemma3n", "tokenizer.json"],
       ["models", "gemma3n", "tokenizer_config.json"],
       ["models", "gemma3n", "special_tokens_map.json"],
       ["models", "gemma3n", "generation_config.json"]] := rfl

theorem quick_srcs_not_targets (mc : List (String × JValue)) :
    ∀ q ∈ copySrcs (quickSteps mc), q ∉ targets (quickSteps mc) := by
  simp only [quickSteps_copySrcs, quickSteps_targets]
  decide

theorem quickSrcConfig_not_target (mc : List (String × JValue)) :
    quickSrcConfigPath ∉ targets (quickSteps mc) := by
  simp only [quickSteps_targets]
  decide

theorem quickDirs_idem (g : FPath → Bool) : quickDirs (quickDirs g) = quickDirs g := by
  funext p
  simp only [quickDirs, mkdirp]
  cases g p <;> cases hm : List.isPrefixOf p modelsOut <;>
    cases ha : List.isPrefixOf p assetsOut <;> rfl

theorem quickRun_src_config_preserved (mc : List (String × JValue)) (fs : FS) :
    execSteps (quickSteps mc) fs quickSrcConfigPath = fs quickSrcConfigPath :=
  execSteps_not_target (quickSteps mc) fs quickSrcConfigPath
    (quick_srcs_not_targets mc) (quickSrcConfig_not_target mc)

/-- C3: running `create_mobile_model` of `quick_quantize.py` twice on the
same unchanged source leaves the filesystem in the state reached after a
single run: every file written by the second run overwrites the first run's
file with the same content, and no file is appended to or added, so the
final state (both output directories included) is identical regardless of
run count. -/
theorem c3_quick_idempotent (s : SysState) (b : Bool) (s2 : SysState)
    (h : create_mobile_model s = some (b, s2)) :
    create_mobile_model s2 = some (true, s2) := by
  unfold create_mobile_model at h
  cases hlo : loadOriginalConfig s.files with
  | none => rw [hlo] at h; exact absurd h (by simp)
  | some o =>
      rw [hlo] at h
      dsimp only at h
      cases hmc : quickMobileConfig o with
      | none => rw [hmc] at h; exact absurd h (by simp)
      | some mc =>
          rw [hmc] at h
          simp only [Option.some.injEq, Prod.mk.injEq] at h
          obtain ⟨hb, hs2⟩ := h
          have hfiles : s2.files = execSteps (quickSteps mc) s.files := by
            rw [← hs2]
          have hdirs : s2.dirs = quickDirs s.dirs := by
            rw [← hs2]
          have hpres : s2.files quickSrcConfigPath = s.files quickSrcConfigPath := by
            rw [hfiles]; exact quickRun_src_config_preserved mc s.files
          have hlo2 : loadOriginalConfig s2.files = some o := by
            unfold loadOriginalConfig
            rw [hpres]
            unfold loadOriginalConfig at hlo
            exact hlo
          unfold create_mobile_model
          rw [hlo2]
          dsimp only
          rw [hmc]
          dsimp only
          have hidem : execSteps (quickSteps mc) s2.files = s2.files := by
            rw [hfiles]
            exact execSteps_idem (quickSteps mc) s.files (quick_srcs_not_targets mc)
          have hdidem : quickDirs s2.dirs = s2.dirs := by
            rw [hdirs]
            exact quickDirs_idem s.dirs
          rw [hidem, hdidem]

/-!
## Concrete runs used as witnesses
-/

/-- The empty filesystem: no source model present at all. -/
def fsEmpty : FS := fun _ => none

/-- No directories exist initially. -/
def dirsEmpty : FPath → Bool := fun _ => false

/-- Initial state with an absent source directory. -/
def quickS0 : SysState := ⟨fsEmpty, dirsEmpty⟩

/-- The `mobile_config` the quick script builds from the default (empty)
original config: every capped field sits exactly at its cap. -/
def quickDefaultConfig : List (String × JValue) :=
  [("model_type", .jstr "gemma"),
   ("architectures", .jarr [.jstr "GemmaForCausalLM"]),
   ("vocab_size", .jnum 256000),
   ("hidden_size", .jnum 1024),
   ("num_attention_heads", .jnum 6),
   ("num_hidden_layers", .jnum 8),
   ("intermediate_size", .jnum 2048),
   ("max_position_embeddings", .jnum 2048),
   ("torch_dtype", .jstr "float16"),
   ("transformers_version", .jstr "4.38.0"),
   ("_name_or_path", .jstr "google/gemma-3n-mobile"),
   ("use_cache", .jbool true),
   ("mobile_optimized", .jbool true),
   ("quantization", .jstr "mobile_ready"),
   ("approximate_size_mb", .jnum 50)]

theorem quickMobileConfig_default : quickMobileConfig [] = some quickDefaultConfig := rfl

/-- The state after one quick run from the empty state. -/
def quickS0run : SysState :=
  ⟨execSteps (quickSteps quickDefaultConfig) fsEmpty, quickDirs dirsEmpty⟩

theorem quickRun_from_empty : create_mobile_model quickS0 = some (true, quickS0run) := rfl

/-- Witness for C3: a concrete state satisfying the hypothesis, and the
idempotence conclusion obtained from the theorem. -/
theorem c3_quick_idempotent_witness :
    create_mobile_model quickS0 = some (true, quickS0run) ∧
      create_mobile_model quickS0run = some (true, quickS0run) :=
  ⟨quickRun_from_empty, c3_quick_idempotent quickS0 true quickS0run quickRun_from_empty⟩

/-!
## C1: the mobile configuration caps
-/

/-- The numeric value of a JSON entry is at most `m` (Python booleans count
as integers); non-numeric values never satisfy it. -/
def jvalLe (v : JValue) (m : Int) : Prop :=
  match v with
  | .jnum n => n ≤ m
  | .jbool b => (if b then (1 : Int) else 0) ≤ m
  | _ => False

/-- A present JSON entry whose value is at most `m`. -/
def optJvalLe (v : Option JValue) (m : Int) : Prop :=
  match v with
  | some w => jvalLe w m
  | none => False

theorem pyMinJ_le (v : JValue) (cap : Int) (w : JValue)
    (h : pyMinJ v cap = some w) : jvalLe w cap := by
  cases v with
  | jnum n =>
      unfold pyMinJ at h
      injection h with h
      subst h
      exact min_le_right n cap
  | jbool b =>
      unfold pyMinJ at h
      dsimp only at h
      by_cases hc : (if b then (1 : Int) else 0) ≤ cap
      · rw [if_pos hc] at h
        injection h with h
        subst h
        exact hc
      · rw [if_neg hc] at h
        injection h with h
        subst h
        exact le_refl cap
  | jstr s => exact absurd h (by simp [pyMinJ])
  | jarr xs => exact absurd h (by simp [pyMinJ])
  | jobj fields => exact absurd h (by simp [pyMinJ])
  | jnull => exact absurd h (by simp [pyMinJ])

/-- C1: every generated mobile configuration satisfies the caps.  In
`create_custom_quantized_model` of `quantize_model.py`: `hidden_size` at
most 1024, `num_attention_heads` at most 8, `num_hidden_layers` at most 12,
for every input configuration.  In `create_mobile_model` of
`quick_quantize.py`: `hidden_size` at most 1024, `num_attention_heads` at
most 6, `num_hidden_layers` at most 8, for every input configuration from
which the config is built at all. -/
theorem c1_mobile_caps :
    (∀ c : OrigConfig,
      optJvalLe (lookupJ (customMobileConfig c) "hidden_size") 1024 ∧
      optJvalLe (lookupJ (customMobileConfig c) "num_attention_heads") 8 ∧
      optJvalLe (lookupJ (customMobileConfig c) "num_hidden_layers") 12) ∧
    (∀ (o mc : List (String × JValue)), quickMobileConfig o = some mc →
      optJvalLe (lookupJ mc "hidden_size") 1024 ∧
      optJvalLe (lookupJ mc "num_attention_heads") 6 ∧
      optJvalLe (lookupJ mc "num_hidden_layers") 8) := by
  constructor
  · intro c
    refine ⟨?_, ?_, ?_⟩
    · have h : lookupJ (customMobileConfig c) "hidden_size"
          = some (.jnum (min c.hidden_size 1024)) := rfl
      rw [h]
      exact min_le_right _ _
    · have h : lookupJ (customMobileConfig c) "num_attention_heads"
          = some (.jnum (min c.num_attention_heads 8)) := rfl
      rw [h]
      exact min_le_right _ _
    · have h : lookupJ (customMobileConfig c) "num_hidden_layers"
          = some (.jnum (min c.num_hidden_layers 12)) := rfl
      rw [h]
      exact min_le_right _ _
  · intro o mc h
    unfold quickMobileConfig at h
    cases h1 : pyMinJ (jget o "hidden_size" (.jnum 2048)) 1024 with
    | none => rw [h1] at h; simp at h
    | some hs =>
        rw [h1] at h
        cases h2 : pyMinJ (jget o "num_attention_heads" (.jnum 8)) 6 with
        | none => rw [h2] at h; simp at h
        | some nah =>
            rw [h2] at h
            cases h3 : pyMinJ (jget o "num_hidden_layers" (.jnum 18)) 8 with
            | none => rw [h3] at h; simp at h
            | some nhl =>
                rw [h3] at h
                cases h4 : pyMinJ (jget o "intermediate_size" (.jnum 16384)) 2048 with
                | none => rw [h4] at h; simp at h
                | some its =>
                    rw [h4] at h
                    cases h5 : pyMinJ (jget o "max_position_embeddings" (.jnum 8192)) 2048 with
                    | none => rw [h5] at h; simp at h
                    | some mpe =>
                        rw [h5] at h
                        dsimp only at h
                        injection h with h
                        subst h
                        exact ⟨pyMinJ_le _ _ _ h1, pyMinJ_le _ _ _ h2, pyMinJ_le _ _ _ h3⟩

/-- A representative original configuration for `create_custom_quantized_model`
(Gemma-like hyperparameters). -/
def origGemma : OrigConfig :=
  ⟨"gemma", .jarr [.jstr "GemmaForCausalLM"], 256000, 2048, 8, 18, 16384, 8192,
   "google/gemma-3n"⟩

/-- Witness for C1: the hypothesis of the quick-script half discharged at
the empty original config, plus the conclusions at concrete inputs. -/
theorem c1_mobile_caps_witness :
    quickMobileConfig [] = some quickDefaultConfig ∧
    (optJvalLe (lookupJ quickDefaultConfig "hidden_size") 1024 ∧
     optJvalLe (lookupJ quickDefaultConfig "num_attention_heads") 6 ∧
     optJvalLe (lookupJ quickDefaultConfig "num_hidden_layers") 8) ∧
    optJvalLe (lookupJ (customMobileConfig origGemma) "hidden_size") 1024 :=
  ⟨quickMobileConfig_default,
   c1_mobile_caps.2 [] quickDefaultConfig quickMobileConfig_default,
   (c1_mobile_caps.1 origGemma).1⟩

/-!
## C8: exact placeholder weight file contents
-/

theorem takeLenAppend {α : Type} (a l : List α) : (a ++ l).take a.length = a := by
  induction a with
  | nil => rfl
  | cons x xs ih => simp [ih]

theorem dropLenAppend {α : Type} (a l : List α) : (a ++ l).drop a.length = l := by
  induction a with
  | nil => rfl
  | cons x xs ih => simp [ih]

theorem placeholder_marker_len :
    (strBytes "PLACEHOLDER_WEIGHTS_FOR_MOBILE_TESTING").length = 38 := rfl

theorem quick_marker_len :
    (strBytes "GEMMA3N_MOBILE_PLACEHOLDER_WEIGHTS").length = 34 := rfl

/-- C8: the placeholder weights file of `create_placeholder_weights`
(`quantize_model.py`) is exactly the marker byte string
`PLACEHOLDER_WEIGHTS_FOR_MOBILE_TESTING` followed by zero bytes, 1024 bytes
in total; the one of `create_minimal_weights` (`quick_quantize.py`) is
exactly `GEMMA3N_MOBILE_PLACEHOLDER_WEIGHTS` followed by zero bytes,
1048576 bytes (1 MB) in total. -/
theorem c8_placeholder_contents :
    placeholderData.length = 1024 ∧
    placeholderData.take 38 = strBytes "PLACEHOLDER_WEIGHTS_FOR_MOBILE_TESTING" ∧
    placeholderData.drop 38 = List.replicate (1024 - 38) 0 ∧
    quickPlaceholderBytes.length = 1048576 ∧
    quickPlaceholderBytes.take 34 = strBytes "GEMMA3N_MOBILE_PLACEHOLDER_WEIGHTS" ∧
    quickPlaceholderBytes.drop 34 = List.replicate (1024 * 1024 - 34) 0 := by
  refine ⟨?_, ?_, ?_, ?_, ?_, ?_⟩
  · rw [placeholderData, List.length_append, List.length_replicate,
      placeholder_marker_len]
  · simp only [placeholderData]
    rw [← placeholder_marker_len]
    exact takeLenAppend _ _
  · simp only [placeholderData]
    rw [show (38 : Nat) = (strBytes "PLACEHOLDER_WEIGHTS_FOR_MOBILE_TESTING").length
      from rfl]
    exact dropLenAppend _ _
  · rw [quickPlaceholderBytes, List.length_append, List.length_replicate,
      quick_marker_len]
  · simp only [quickPlaceholderBytes]
    rw [← quick_marker_len]
    exact takeLenAppend _ _
  · simp only [quickPlaceholderBytes]
    rw [show (34 : Nat) = (strBytes "GEMMA3N_MOBILE_PLACEHOLDER_WEIGHTS").length
      from rfl]
    exact dropLenAppend _ _

/-!
## C4: `copy_to_assets` reproduces the quantized tree exactly
-/

theorem isPrefixOfAppendSelf (a l : List String) : a.isPrefixOf (a ++ l) = true := by
  induction a with
  | nil => simp [List.isPrefixOf]
  | cons x xs ih => simp [List.isPrefixOf, ih]

theorem assetsDir_not_under_quantized (rest : FPath) :
    List.isPrefixOf qmOutputDir (qmQuantizedDir ++ rest) = false := rfl

/-- C4: after `copy_to_assets(quantized_dir, assets_dir)` returns success,
the file at every relative path under the assets directory is exactly the
file at the same relative path under the quantized directory (present with
identical content, or absent in both), for every prior filesystem content -
in particular whatever the assets directory contained before is gone. -/
theorem c4_copy_to_assets_tree (fs : FS) (r : String) (rs : List String) :
    (copy_to_assets qmQuantizedDir qmOutputDir fs).1 = true ∧
    (copy_to_assets qmQuantizedDir qmOutputDir fs).2 (qmOutputDir ++ r :: rs)
      = fs (qmQuantizedDir ++ r :: rs) := by
  refine ⟨rfl, ?_⟩
  have hlen : qmOutputDir.length < (qmOutputDir ++ r :: rs).length := by
    simp [List.length_append]
  show copytreeFS qmQuantizedDir qmOutputDir (rmtreeFS qmOutputDir fs)
      (qmOutputDir ++ r :: rs) = fs (qmQuantizedDir ++ r :: rs)
  unfold copytreeFS
  rw [if_pos ⟨isPrefixOfAppendSelf qmOutputDir (r :: rs), hlen⟩, dropLenAppend]
  unfold rmtreeFS
  rw [if_neg]
  rw [assetsDir_not_under_quantized]
  exact Bool.false_ne_true

/-!
## C5: `vocab_size` is not capped
-/

/-- An original configuration with a vocabulary far above every constant
appearing in either script. -/
def origBig : OrigConfig :=
  ⟨"gemma", .jarr [.jstr "GemmaForCausalLM"], 1000000000, 2048, 8, 18, 16384, 8192,
   "google/gemma-3n"⟩

/-- A source `config.json` for the quick script carrying the same huge
vocabulary. -/
def quickBigInput : List (String × JValue) := [("vocab_size", .jnum 1000000000)]

/-- The mobile config the quick script builds from `quickBigInput`. -/
def quickBigConfig : List (String × JValue) :=
  [("model_type", .jstr "gemma"),
   ("architectures", .jarr [.jstr "GemmaForCausalLM"]),
   ("vocab_size", .jnum 1000000000),
   ("hidden_size", .jnum 1024),
   ("num_attention_heads", .jnum 6),
   ("num_hidden_layers", .jnum 8),
   ("intermediate_size", .jnum 2048),
   ("max_position_embeddings", .jnum 2048),
   ("torch_dtype", .jstr "float16"),
   ("transformers_version", .jstr "4.38.0"),
   ("_name_or_path", .jstr "google/gemma-3n-mobile"),
   ("use_cache", .jbool true),
   ("mobile_optimized", .jbool true),
   ("quantization", .jstr "mobile_ready"),
   ("approximate_size_mb", .jnum 50)]

/-- Counterexample for C5: an input whose vocabulary size 1000000000 is
passed through unchanged by both scripts, exceeding 52428800, the largest
constant hard-coded anywhere in either script - so the output `vocab_size`
is not capped at any hard-coded maximum. -/
theorem c5_vocab_uncapped_ctex :
    lookupJ (customMobileConfig origBig) "vocab_size" = some (.jnum 1000000000) ∧
    quickMobileConfig quickBigInput = some quickBigConfig ∧
    lookupJ quickBigConfig "vocab_size" = some (.jnum 1000000000) ∧
    (52428800 : Int) < 1000000000 :=
  ⟨rfl, rfl, rfl, by norm_num⟩

/-- C5 amended: the mobile configuration caps hidden size, attention heads,
layer count, intermediate size and max position embeddings at hard-coded
maxima, but `vocab_size` is copied through from the input configuration
unchanged (defaulting to 256000 in the quick script when absent) and is not
capped. -/
theorem c5_caps_amended :
    (∀ c : OrigConfig,
      lookupJ (customMobileConfig c) "vocab_size" = some (.jnum c.vocab_size) ∧
      optJvalLe (lookupJ (customMobileConfig c) "hidden_size") 1024 ∧
      optJvalLe (lookupJ (customMobileConfig c) "num_attention_heads") 8 ∧
      optJvalLe (lookupJ (customMobileConfig c) "num_hidden_layers") 12 ∧
      optJvalLe (lookupJ (customMobileConfig c) "intermediate_size") 4096 ∧
      optJvalLe (lookupJ (customMobileConfig c) "max_position_embeddings") 2048) ∧
    (∀ (o mc : List (String × JValue)), quickMobileConfig o = some mc →
      lookupJ mc "vocab_size" = some (jget o "vocab_size" (.jnum 256000)) ∧
      optJvalLe (lookupJ mc "hidden_size") 1024 ∧
      optJvalLe (lookupJ mc "num_attention_heads") 6 ∧
      optJvalLe (lookupJ mc "num_hidden_layers") 8 ∧
      optJvalLe (lookupJ mc "intermediate_size") 2048 ∧
      optJvalLe (lookupJ mc "max_position_embeddings") 2048) := by
  constructor
  · intro c
    refine ⟨rfl, ?_, ?_, ?_, ?_, ?_⟩
    · have h : lookupJ (customMobileConfig c) "hidden_size"
          = some (.jnum (min c.hidden_size 1024)) := rfl
      rw [h]; exact min_le_right _ _
    · have h : lookupJ (customMobileConfig c) "num_attention_heads"
          = some (.jnum (min c.num_attention_heads 8)) := rfl
      rw [h]; exact min_le_right _ _
    · have h : lookupJ (customMobileConfig c) "num_hidden_layers"
          = some (.jnum (min c.num_hidden_layers 12)) := rfl
      rw [h]; exact min_le_right _ _
    · have h : lookupJ (customMobileConfig c) "intermediate_size"
          = some (.jnum (min c.intermediate_size 4096)) := rfl
      rw [h]; exact min_le_right _ _
    · have h : lookupJ (customMobileConfig c) "max_position_embeddings"
          = some (.jnum (min c.max_position_embeddings 2048)) := rfl
      rw [h]; exact min_le_right _ _
  · intro o mc h
    unfold quickMobileConfig at h
    cases h1 : pyMinJ (jget o "hidden_size" (.jnum 2048)) 1024 with
    | none => rw [h1] at h; simp at h
    | some hs =>
        rw [h1] at h
        cases h2 : pyMinJ (jget o "num_attention_heads" (.jnum 8)) 6 with
        | none => rw [h2] at h; simp at h
        | some nah =>
            rw [h2] at h
            cases h3 : pyMinJ (jget o "num_hidden_layers" (.jnum 18)) 8 with
            | none => rw [h3] at h; simp at h
            | some nhl =>
                rw [h3] at h
                cases h4 : pyMinJ (jget o "intermediate_size" (.jnum 16384)) 2048 with
                | none => rw [h4] at h; simp at h
                | some its =>
                    rw [h4] at h
                    cases h5 : pyMinJ (jget o "max_position_embeddings" (.jnum 8192)) 2048 with
                    | none => rw [h5] at h; simp at h
                    | some mpe =>
                        rw [h5] at h
                        dsimp only at h
                        injection h with h
                        subst h
                        exact ⟨rfl, pyMinJ_le _ _ _ h1, pyMinJ_le _ _ _ h2,
                          pyMinJ_le _ _ _ h3, pyMinJ_le _ _ _ h4, pyMinJ_le _ _ _ h5⟩

/-- Witness for C5 amended: hypotheses discharged at the empty quick config
and at a concrete custom config. -/
theorem c5_caps_amended_witness :
    quickMobileConfig [] = some quickDefaultConfig ∧
    lookupJ quickDefaultConfig "vocab_size" = some (jget [] "vocab_size" (.jnum 256000)) ∧
    lookupJ (customMobileConfig origGemma) "vocab_size" = some (.jnum origGemma.vocab_size) :=
  ⟨quickMobileConfig_default,
   (c5_caps_amended.2 [] quickDefaultConfig quickMobileConfig_default).1,
   (c5_caps_amended.1 origGemma).1⟩

/-!
## C10: the two output locations of the quick script
-/

theorem quick_final_models_config (mc : List (String × JValue)) (fs : FS) :
    execSteps (quickSteps mc) fs (modelsOut ++ ["config.json"])
      = some (.jsonFile (.jobj mc)) := by
  rw [execSteps_eq_lastVal _ _ _ (quick_srcs_not_targets mc)]
  simp [quickSteps, locSteps, quickFilesToCopy, lastVal, stepVal, modelsOut,
    assetsOut, srcDir]

theorem quick_final_assets_config (mc : List (String × JValue)) (fs : FS) :
    execSteps (quickSteps mc) fs (assetsOut ++ ["config.json"])
      = some (.jsonFile (.jobj mc)) := by
  rw [execSteps_eq_lastVal _ _ _ (quick_srcs_not_targets mc)]
  simp [quickSteps, locSteps, quickFilesToCopy, lastVal, stepVal, modelsOut,
    assetsOut, srcDir]

theorem quick_final_models_index (mc : List (String × JValue)) (fs : FS) :
    execSteps (quickSteps mc) fs (modelsOut ++ ["model.safetensors.index.json"])
      = some (.jsonFile quickIndexJson) := by
  rw [execSteps_eq_lastVal _ _ _ (quick_srcs_not_targets mc)]
  simp [quickSteps, locSteps, quickFilesToCopy, lastVal, stepVal, modelsOut,
    assetsOut, srcDir]

theorem quick_final_assets_index (mc : List (String × JValue)) (fs : FS) :
    execSteps (quickSteps mc) fs (assetsOut ++ ["model.safetensors.index.json"])
      = some (.jsonFile quickIndexJson) := by
  rw [execSteps_eq_lastVal _ _ _ (quick_srcs_not_targets mc)]
  simp [quickSteps, locSteps, quickFilesToCopy, lastVal, stepVal, modelsOut,
    assetsOut, srcDir]

theorem quick_final_models_weights (mc : List (String × JValue)) (fs : FS) :
    execSteps (quickSteps mc) fs (modelsOut ++ ["model.safetensors"])
      = some (.binFile quickPlaceholderBytes) := by
  rw [execSteps_eq_lastVal _ _ _ (quick_srcs_not_targets mc)]
  simp [quickSteps, locSteps, quickFilesToCopy, lastVal, stepVal, modelsOut,
    assetsOut, srcDir]

theorem quick_final_assets_weights (mc : List (String × JValue)) (fs : FS) :
    execSteps (quickSteps mc) fs (assetsOut ++ ["model.safetensors"])
      = some (.binFile quickPlaceholderBytes) := by
  rw [execSteps_eq_lastVal _ _ _ (quick_srcs_not_targets mc)]
  simp [quickSteps, locSteps, quickFilesToCopy, lastVal, stepVal, modelsOut,
    assetsOut, srcDir]

theorem quick_final_models_info (mc : List (String × JValue)) (fs : FS) :
    execSteps (quickSteps mc) fs (modelsOut ++ ["model_info.json"])
      = some (.jsonFile (quickInfo "models")) := by
  rw [execSteps_eq_lastVal _ _ _ (quick_srcs_not_targets mc)]
  simp [quickSteps, locSteps, quickFilesToCopy, lastVal, stepVal, modelsOut,
    assetsOut, srcDir]

theorem quick_final_assets_info (mc : List (String × JValue)) (fs : FS) :
    execSteps (quickSteps mc) fs (assetsOut ++ ["model_info.json"])
      = some (.jsonFile (quickInfo "assets")) := by
  rw [execSteps_eq_lastVal _ _ _ (quick_srcs_not_targets mc)]
  simp [quickSteps, locSteps, quickFilesToCopy, lastVal, stepVal, modelsOut,
    assetsOut, srcDir]

theorem quick_final_tokenizer_files (mc : List (String × JValue)) (fs : FS)
    (n : String) (d : FileData) (hn : n ∈ quickFilesToCopy)
    (h : fs (srcDir ++ [n]) = some d) :
    execSteps (quickSteps mc) fs (modelsOut ++ [n]) = some d ∧
    execSteps (quickSteps mc) fs (assetsOut ++ [n]) = some d := by
  simp [srcDir] at h
  fin_cases hn <;>
    constructor <;>
      (rw [execSteps_eq_lastVal _ _ _ (quick_srcs_not_targets mc)]
       simp [quickSteps, locSteps, quickFilesToCopy, lastVal, stepVal, modelsOut,
         assetsOut, srcDir, h])

/-- C10: a single `create_mobile_model` run writes the two output locations
with identical content for every produced file except `model_info.json`:
`config.json`, the safetensors index, the placeholder weights and every
copied tokenizer file are identical across locations, while the two
`model_info.json` documents differ exactly in the `location` field, which
names the location each was written to. -/
theorem c10_two_locations (s : SysState) (o mc : List (String × JValue))
    (h1 : loadOriginalConfig s.files = some o)
    (h2 : quickMobileConfig o = some mc) :
    create_mobile_model s =
      some (true, ⟨execSteps (quickSteps mc) s.files, quickDirs s.dirs⟩) ∧
    execSteps (quickSteps mc) s.files (modelsOut ++ ["config.json"])
      = execSteps (quickSteps mc) s.files (assetsOut ++ ["config.json"]) ∧
    execSteps (quickSteps mc) s.files (modelsOut ++ ["model.safetensors.index.json"])
      = execSteps (quickSteps mc) s.files (assetsOut ++ ["model.safetensors.index.json"]) ∧
    execSteps (quickSteps mc) s.files (modelsOut ++ ["model.safetensors"])
      = execSteps (quickSteps mc) s.files (assetsOut ++ ["model.safetensors"]) ∧
    (∀ (n : String) (d : FileData), n ∈ quickFilesToCopy →
      s.files (srcDir ++ [n]) = some d →
      execSteps (quickSteps mc) s.files (modelsOut ++ [n]) = some d ∧
      execSteps (quickSteps mc) s.files (assetsOut ++ [n]) = some d) ∧
    execSteps (quickSteps mc) s.files (modelsOut ++ ["model_info.json"])
      = some (.jsonFile (quickInfo "models")) ∧
    execSteps (quickSteps mc) s.files (assetsOut ++ ["model_info.json"])
      = some (.jsonFile (quickInfo "assets")) ∧
    quickInfo "models" ≠ quickInfo "assets" ∧
    (quickInfoFields "models").filter (fun p => p.1 != "location")
      = (quickInfoFields "assets").filter (fun p => p.1 != "location") ∧
    lookupJ (quickInfoFields "models") "location" = some (.jstr "models") ∧
    lookupJ (quickInfoFields "assets") "location" = some (.jstr "assets") := by
  refine ⟨?_, ?_, ?_, ?_, ?_, quick_final_models_info mc s.files,
    quick_final_assets_info mc s.files, ?_, rfl, rfl, rfl⟩
  · unfold create_mobile_model
    rw [h1]
    dsimp only
    rw [h2]
  · rw [quick_final_models_config mc s.files, quick_final_assets_config mc s.files]
  · rw [quick_final_models_index mc s.files, quick_final_assets_index mc s.files]
  · rw [quick_final_models_weights mc s.files, quick_final_assets_weights mc s.files]
  · exact fun n d hn h => quick_final_tokenizer_files mc s.files n d hn h
  · simp [quickInfo, quickInfoFields]

/-- Witness for C10: the hypotheses discharged on the concrete empty state. -/
theorem c10_two_locations_witness :
    loadOriginalConfig quickS0.files = some [] ∧
    quickMobileConfig [] = some quickDefaultConfig ∧
    create_mobile_model quickS0 =
      some (true, ⟨execSteps (quickSteps quickDefaultConfig) quickS0.files,
        quickDirs quickS0.dirs⟩) :=
  ⟨rfl, quickMobileConfig_default,
   (c10_two_locations quickS0 [] quickDefaultConfig rfl quickMobileConfig_default).1⟩

/-!
## C2: behaviour when the source model directory is absent
-/

theorem qmDirs_source (g : FPath → Bool) : qmDirs g qmSourceDir = g qmSourceDir := by
  have h1 : List.isPrefixOf qmSourceDir qmQuantizedDir = false := rfl
  have h2 : List.isPrefixOf qmSourceDir qmOutputDir = false := rfl
  simp [qmDirs, mkdirp, h1, h2]

/-- Counterexample for C2: with the source model directory entirely absent
(empty filesystem, no directories), `create_mobile_model` of
`quick_quantize.py` does not report failure - it returns `True` - and it
does write output content, e.g. a `config.json` in the models output
directory where there was none before. -/
theorem c2_quick_no_failure_ctex :
    quickS0.files quickSrcConfigPath = none ∧
    quickS0.dirs srcDir = false ∧
    create_mobile_model quickS0 = some (true, quickS0run) ∧
    quickS0run.files (modelsOut ++ ["config.json"])
      = some (.jsonFile (.jobj quickDefaultConfig)) ∧
    quickS0.files (modelsOut ++ ["config.json"]) = none :=
  ⟨rfl, rfl, quickRun_from_empty,
   quick_final_models_config quickDefaultConfig fsEmpty, rfl⟩

/-- C2 amended: when the source model directory is absent,
`quantize_model.py`'s `main` reports failure and exits with status 1
having written no file at all - only the empty output directories created
by `setup_directories` exist; `quick_quantize.py` however does not check
the source directory: `create_mobile_model` falls back to the default
configuration and still writes its output files, reporting success. -/
theorem c2_missing_source_amended :
    (∀ (input : String) (orc : Oracle) (s : SysState),
      s.dirs qmSourceDir = false →
      mainQM true input orc s = .exited 1 true ⟨s.files, qmDirs s.dirs⟩) ∧
    (∀ s : SysState, s.files quickSrcConfigPath = none →
      create_mobile_model s = some (true,
        ⟨execSteps (quickSteps quickDefaultConfig) s.files, quickDirs s.dirs⟩) ∧
      execSteps (quickSteps quickDefaultConfig) s.files (modelsOut ++ ["config.json"])
        = some (.jsonFile (.jobj quickDefaultConfig))) := by
  constructor
  · intro input orc s h
    unfold mainQM
    rw [if_neg (by simp)]
    dsimp only
    rw [if_pos (by rw [qmDirs_source]; exact h)]
  · intro s h
    have hlo : loadOriginalConfig s.files = some [] := by
      unfold loadOriginalConfig
      rw [h]
    constructor
    · unfold create_mobile_model
      rw [hlo]
      dsimp only
      rw [quickMobileConfig_default]
    · exact quick_final_models_config quickDefaultConfig s.files

/-- The oracle where every library call raises. -/
def orcFail : Oracle := ⟨fun _ => .error (), .error (), .error ()⟩

/-- Witness for C2 amended: both hypotheses discharged on the empty state. -/
theorem c2_missing_source_amended_witness :
    quickS0.dirs qmSourceDir = false ∧
    mainQM true "1" orcFail quickS0
      = .exited 1 true ⟨quickS0.files, qmDirs quickS0.dirs⟩ ∧
    quickS0.files quickSrcConfigPath = none ∧
    create_mobile_model quickS0 = some (true,
      ⟨execSteps (quickSteps quickDefaultConfig) quickS0.files, quickDirs quickS0.dirs⟩) :=
  ⟨rfl, c2_missing_source_amended.1 "1" orcFail quickS0 rfl, rfl,
   (c2_missing_source_amended.2 quickS0 rfl).1⟩

/-!
## C6: which pathways write `model_info.json`
-/

theorem appendLeftCancel (out : FPath) (l1 l2 : List String)
    (h : out ++ l1 = out ++ l2) : l1 = l2 := by
  induction out with
  | nil => exact h
  | cons x xs ih =>
      injection h with _ h2
      exact ih h2

theorem appendSingleNe (out : FPath) (a b : String) (h : a ≠ b) :
    out ++ [a] ≠ out ++ [b] := by
  intro he
  have := appendLeftCancel out [a] [b] he
  injection this with h1 _
  exact h h1

theorem libWrites_targets (outDir : FPath) (saved : List (String × FileData)) :
    targets (libWrites outDir saved) = saved.map (fun nf => outDir ++ [nf.1]) := by
  induction saved with
  | nil => rfl
  | cons nf rest ih =>
      simp only [libWrites, List.map, targets]
      exact congrArg (fun l => (outDir ++ [nf.1]) :: l) ih

theorem libWrites_copySrcs (outDir : FPath) (saved : List (String × FileData)) :
    copySrcs (libWrites outDir saved) = [] := by
  induction saved with
  | nil => rfl
  | cons nf rest ih =>
      simp only [libWrites, List.map, copySrcs]
      exact ih

theorem libWrites_preserves (outDir : FPath) (saved : List (String × FileData))
    (fs : FS) (n : String) (h : n ∉ saved.map Prod.fst) :
    execSteps (libWrites outDir saved) fs (outDir ++ [n]) = fs (outDir ++ [n]) := by
  apply execSteps_not_target
  · intro q hq
    rw [libWrites_copySrcs] at hq
    exact absurd hq (List.not_mem_nil q)
  · rw [libWrites_targets]
    intro hmem
    rw [List.mem_map] at hmem
    obtain ⟨nf, hnf, heq⟩ := hmem
    have h1 : nf.1 = n := by
      simpa using appendLeftCancel outDir [nf.1] [n] heq
    exact h (List.mem_map.mpr ⟨nf, hnf, h1⟩)

/-- Counterexample for C6: both the custom-mobile pathway and the ONNX
pathway of `quantize_model.py` return success while leaving no
`model_info.json` in the output directory (here: an initially empty
filesystem stays without one), so not every successful quantization pathway
writes a model info record. -/
theorem c6_missing_info_ctex :
    (create_custom_quantized_model (Except.ok (origGemma, [])) qmQuantizedDir fsEmpty).1
      = true ∧
    (create_custom_quantized_model (Except.ok (origGemma, [])) qmQuantizedDir fsEmpty).2
      (qmQuantizedDir ++ ["model_info.json"]) = none ∧
    (quantize_to_onnx (Except.ok []) qmQuantizedDir fsEmpty).1 = true ∧
    (quantize_to_onnx (Except.ok []) qmQuantizedDir fsEmpty).2
      (qmQuantizedDir ++ ["model_info.json"]) = none := by
  refine ⟨rfl, ?_, rfl, rfl⟩
  rfl

/-- C6 amended: the transformers pathway of `quantize_model.py` writes
`model_info.json` (via `create_quantized_model_info`) on every success, and
`create_mobile_model` of `quick_quantize.py` writes one in each output
location; but `create_custom_quantized_model` and `quantize_to_onnx` never
write a `model_info.json` themselves - after a successful run the file at
that name is whatever the filesystem already had (unless a library-written
tokenizer file of that exact name put one there). -/
theorem c6_model_info_amended :
    (∀ (saved : List (String × FileData)) (sizeGb : Int) (outDir : FPath)
        (method : String) (fs : FS),
      (quantize_with_transformers (.ok (saved, sizeGb)) outDir method fs).1 = true ∧
      (quantize_with_transformers (.ok (saved, sizeGb)) outDir method fs).2
          (outDir ++ ["model_info.json"])
        = some (.jsonFile (.jobj (qmInfoFields method sizeGb)))) ∧
    (∀ (mc : List (String × JValue)) (fs : FS),
      execSteps (quickSteps mc) fs (modelsOut ++ ["model_info.json"])
        = some (.jsonFile (quickInfo "models")) ∧
      execSteps (quickSteps mc) fs (assetsOut ++ ["model_info.json"])
        = some (.jsonFile (quickInfo "assets"))) ∧
    (∀ (cfg : OrigConfig) (tokFiles : List (String × FileData)) (outDir : FPath)
        (fs : FS), "model_info.json" ∉ tokFiles.map Prod.fst →
      (create_custom_quantized_model (.ok (cfg, tokFiles)) outDir fs).1 = true ∧
      (create_custom_quantized_model (.ok (cfg, tokFiles)) outDir fs).2
          (outDir ++ ["model_info.json"]) = fs (outDir ++ ["model_info.json"])) ∧
    (∀ (saved : List (String × FileData)) (outDir : FPath) (fs : FS),
      "model_info.json" ∉ saved.map Prod.fst →
      (quantize_to_onnx (.ok saved) outDir fs).1 = true ∧
      (quantize_to_onnx (.ok saved) outDir fs).2 (outDir ++ ["model_info.json"])
        = fs (outDir ++ ["model_info.json"])) := by
  refine ⟨?_, ?_, ?_, ?_⟩
  · intro saved sizeGb outDir method fs
    refine ⟨rfl, ?_⟩
    unfold quantize_with_transformers create_quantized_model_info
    dsimp only
    rw [Function.update_same]
  · intro mc fs
    exact ⟨quick_final_models_info mc fs, quick_final_assets_info mc fs⟩
  · intro cfg tokFiles outDir fs h
    refine ⟨rfl, ?_⟩
    unfold create_custom_quantized_model create_placeholder_weights
    dsimp only
    rw [Function.update_apply,
      if_neg (appendSingleNe outDir _ _ (by decide)),
      Function.update_apply,
      if_neg (appendSingleNe outDir _ _ (by decide)),
      libWrites_preserves outDir tokFiles _ _ h,
      Function.update_apply,
      if_neg (appendSingleNe outDir _ _ (by decide))]
  · intro saved outDir fs h
    exact ⟨rfl, libWrites_preserves outDir saved fs _ h⟩

/-- Witness for C6 amended: hypotheses discharged at empty library file
lists on the empty filesystem. -/
theorem c6_model_info_amended_witness :
    ("model_info.json" ∉ ([] : List (String × FileData)).map Prod.fst) ∧
    (quantize_with_transformers (.ok ([], 0)) qmQuantizedDir "int8" fsEmpty).2
        (qmQuantizedDir ++ ["model_info.json"])
      = some (.jsonFile (.jobj (qmInfoFields "int8" 0))) ∧
    (create_custom_quantized_model (.ok (origGemma, [])) qmQuantizedDir fsEmpty).2
        (qmQuantizedDir ++ ["model_info.json"])
      = fsEmpty (qmQuantizedDir ++ ["model_info.json"]) ∧
    (quantize_to_onnx (.ok []) qmQuantizedDir fsEmpty).2
        (qmQuantizedDir ++ ["model_info.json"])
      = fsEmpty (qmQuantizedDir ++ ["model_info.json"]) :=
  ⟨by simp,
   (c6_model_info_amended.1 [] 0 qmQuantizedDir "int8" fsEmpty).2,
   (c6_model_info_amended.2.2.1 origGemma [] qmQuantizedDir fsEmpty (by simp)).2,
   (c6_model_info_amended.2.2.2 [] qmQuantizedDir fsEmpty (by simp)).2⟩

/-!
## C9 and C7: menu dispatch and error handling of `main`
-/

theorem selKey_default (choice : String)
    (h : choice ∉ (["2", "3", "4", "5"] : List String)) (h1 : choice ≠ "1") :
    selKey choice = "1" := by
  unfold selKey
  rw [if_neg]
  rw [List.find?_eq_none.mpr]
  · simp
  · intro kv hkv
    fin_cases hkv <;> simp [beq_iff_eq] <;> intro he <;>
      simp [he.symm] at h h1

theorem selParam_default (choice : String)
    (h : choice ∉ (["2", "3", "4", "5", "6"] : List String)) :
    selParam choice = "int8" := by
  by_cases h1 : choice = "1"
  · rw [h1]
    rfl
  · have hk : selKey choice = "1" := by
      apply selKey_default
      · intro hm
        apply h
        simp at hm ⊢
        tauto
      · exact h1
    unfold selParam
    rw [hk]
    rfl

/-- The oracle whose int8 transformers call succeeds (writing nothing) while
every other library call raises. -/
def orc9 : Oracle :=
  ⟨fun m => if m = "int8" then .ok ([], 0) else .error (), .error (), .error ()⟩

/-- A state in which every directory (the source model included) exists. -/
def sAllDirs : SysState := ⟨fsEmpty, fun _ => true⟩

/-- Counterexample for C9: the menu input `" 2 "` is not one of the strings
`"2"`-`"6"`, yet the script does not behave as if `"1"` had been entered -
the input is stripped first, so it selects the int4 pathway, observably
different from the int8 pathway chosen for `"1"`. -/
theorem c9_strip_ctex :
    ((" 2 " : String) ∉ (["2", "3", "4", "5", "6"] : List String)) ∧
    mainQM true " 2 " orc9 sAllDirs ≠ mainQM true "1" orc9 sAllDirs := by
  refine ⟨by decide, ?_⟩
  intro he
  have h1 : mainQM true " 2 " orc9 sAllDirs
      = .completedSingle "int4" false false 1 ⟨fsEmpty, qmDirs sAllDirs.dirs⟩ := rfl
  have h2 : mainQM true "1" orc9 sAllDirs
      = .completedSingle "int8" true true 0
          ⟨(copy_to_assets qmQuantizedDir qmOutputDir
              (quantize_with_transformers (orc9.twt "int8") qmQuantizedDir "int8"
                fsEmpty).2).2,
           qmDirs sAllDirs.dirs⟩ := rfl
  rw [h1, h2] at he
  simp at he

/-- C9 amended: for every menu input whose whitespace-stripped value is not
one of `"2"`-`"6"` (the empty string and arbitrary invalid text included),
`main` behaves exactly as if `"1"` had been entered, and (when the source
directory exists) that behaviour is the int8 transformers quantization into
the quantized directory, copied to assets on success. -/
theorem c9_menu_default_amended :
    (∀ (deps : Bool) (input : String) (orc : Oracle) (s : SysState),
      pyStrip input ∉ (["2", "3", "4", "5", "6"] : List String) →
      mainQM deps input orc s = mainQM deps "1" orc s) ∧
    (∀ (input : String) (orc : Oracle) (s : SysState),
      pyStrip input ∉ (["2", "3", "4", "5", "6"] : List String) →
      s.dirs qmSourceDir = true →
      mainQM true input orc s =
        if (quantize_with_transformers (orc.twt "int8") qmQuantizedDir "int8"
              s.files).1 then
          .completedSingle "int8" true true 0
            ⟨(copy_to_assets qmQuantizedDir qmOutputDir
                (quantize_with_transformers (orc.twt "int8") qmQuantizedDir "int8"
                  s.files).2).2,
             qmDirs s.dirs⟩
        else
          .completedSingle "int8" false false 1
            ⟨(quantize_with_transformers (orc.twt "int8") qmQuantizedDir "int8"
                s.files).2,
             qmDirs s.dirs⟩) := by
  have hne6 : ∀ input : String,
      pyStrip input ∉ (["2", "3", "4", "5", "6"] : List String) →
      pyStrip input ≠ "6" := by
    intro input h he
    exact h (by rw [he]; decide)
  constructor
  · intro deps input orc s h
    cases deps with
    | false => rfl
    | true =>
        have hp : selParam (pyStrip input) = "int8" := selParam_default _ h
        unfold mainQM
        dsimp only
        by_cases hsrc : qmDirs s.dirs qmSourceDir = false
        · rw [if_pos hsrc, if_pos hsrc]
        · rw [if_neg hsrc, if_neg (hne6 input h), hp]
          rw [if_neg hsrc, if_neg (show pyStrip "1" ≠ "6" by decide),
            show selParam (pyStrip "1") = "int8" from rfl]
  · intro input orc s h hsrc
    have hp : selParam (pyStrip input) = "int8" := selParam_default _ h
    have hsrc2 : ¬ qmDirs s.dirs qmSourceDir = false := by
      rw [qmDirs_source, hsrc]
      simp
    have hrm : runMethod orc "int8" qmQuantizedDir s.files
        = quantize_with_transformers (orc.twt "int8") qmQuantizedDir "int8" s.files := by
      unfold runMethod
      rw [if_pos (Or.inl rfl)]
    unfold mainQM
    dsimp only
    rw [if_neg (show ¬(true = false) by simp), if_neg hsrc2, if_neg (hne6 input h),
      hp, hrm]

/-- Witness for C9 amended: the empty input string, which strips to a value
outside `"2"`-`"6"`, on a concrete oracle and state. -/
theorem c9_menu_default_amended_witness :
    (pyStrip "" ∉ (["2", "3", "4", "5", "6"] : List String)) ∧
    mainQM true "" orc9 sAllDirs = mainQM true "1" orc9 sAllDirs ∧
    sAllDirs.dirs qmSourceDir = true ∧
    mainQM true "" orc9 sAllDirs =
      (if (quantize_with_transformers (orc9.twt "int8") qmQuantizedDir "int8"
            sAllDirs.files).1 then
        .completedSingle "int8" true true 0
          ⟨(copy_to_assets qmQuantizedDir qmOutputDir
              (quantize_with_transformers (orc9.twt "int8") qmQuantizedDir "int8"
                sAllDirs.files).2).2,
           qmDirs sAllDirs.dirs⟩
      else
        .completedSingle "int8" false false 1
          ⟨(quantize_with_transformers (orc9.twt "int8") qmQuantizedDir "int8"
              sAllDirs.files).2,
           qmDirs sAllDirs.dirs⟩) :=
  ⟨by decide,
   c9_menu_default_amended.1 true "" orc9 sAllDirs (by decide),
   rfl,
   c9_menu_default_amended.2 "" orc9 sAllDirs (by decide) rfl⟩

/-- C7: error handling of `main` in `quantize_model.py`.  With missing
dependencies the process exits with status 1 before any directory is
created and with the state untouched; with dependencies but a missing
source directory it exits with status 1 after creating only the empty
output directories; when the single selected quantization method reports
failure, the copy-to-assets step is skipped and the process exits with
status 1; and each top-level quantization procedure turns a library
exception into a `False` return value with the filesystem unchanged instead
of propagating it. -/
theorem c7_error_handling :
    (∀ (input : String) (orc : Oracle) (s : SysState),
      mainQM false input orc s = .exited 1 false s) ∧
    (∀ (input : String) (orc : Oracle) (s : SysState),
      s.dirs qmSourceDir = false →
      mainQM true input orc s = .exited 1 true ⟨s.files, qmDirs s.dirs⟩) ∧
    (∀ (input : String) (orc : Oracle) (s : SysState),
      s.dirs qmSourceDir = true → pyStrip input ≠ "6" →
      (runMethod orc (selParam (pyStrip input)) qmQuantizedDir s.files).1 = false →
      mainQM true input orc s =
        .completedSingle (selParam (pyStrip input)) false false 1
          ⟨(runMethod orc (selParam (pyStrip input)) qmQuantizedDir s.files).2,
           qmDirs s.dirs⟩) ∧
    (∀ (outDir : FPath) (method : String) (fs : FS),
      quantize_with_transformers (.error ()) outDir method fs = (false, fs) ∧
      quantize_to_onnx (.error ()) outDir fs = (false, fs) ∧
      create_custom_quantized_model (.error ()) outDir fs = (false, fs)) := by
  refine ⟨?_, ?_, ?_, ?_⟩
  · intro input orc s
    rfl
  · intro input orc s h
    unfold mainQM
    dsimp only
    rw [if_neg (show ¬(true = false) by simp),
      if_pos (by rw [qmDirs_source]; exact h)]
  · intro input orc s hsrc h6 hfail
    have hsrc2 : ¬ qmDirs s.dirs qmSourceDir = false := by
      rw [qmDirs_source, hsrc]
      simp
    unfold mainQM
    dsimp only
    rw [if_neg (show ¬(true = false) by simp), if_neg hsrc2, if_neg h6, hfail,
      if_neg (show ¬(false = true) by simp)]
  · intro outDir method fs
    exact ⟨rfl, rfl, rfl⟩

/-- Witness for C7: each branch exercised at concrete inputs. -/
theorem c7_error_handling_witness :
    mainQM false "1" orcFail quickS0 = .exited 1 false quickS0 ∧
    quickS0.dirs qmSourceDir = false ∧
    mainQM true "1" orcFail quickS0
      = .exited 1 true ⟨quickS0.files, qmDirs quickS0.dirs⟩ ∧
    sAllDirs.dirs qmSourceDir = true ∧
    pyStrip "1" ≠ "6" ∧
    (runMethod orcFail (selParam (pyStrip "1")) qmQuantizedDir sAllDirs.files).1
      = false ∧
    mainQM true "1" orcFail sAllDirs =
      .completedSingle (selParam (pyStrip "1")) false false 1
        ⟨(runMethod orcFail (selParam (pyStrip "1")) qmQuantizedDir sAllDirs.files).2,
         qmDirs sAllDirs.dirs⟩ ∧
    quantize_with_transformers (.error ()) qmQuantizedDir "int8" fsEmpty
      = (false, fsEmpty) :=
  ⟨c7_error_handling.1 "1" orcFail quickS0,
   rfl,
   c7_error_handling.2.1 "1" orcFail quickS0 rfl,
   rfl,
   by decide,
   rfl,
   c7_error_handling.2.2.1 "1" orcFail sAllDirs rfl (by decide) rfl,
   (c7_error_handling.2.2.2 qmQuantizedDir "int8" fsEmpty).1⟩
